import Mathlib

set_option maxRecDepth 8000

/-!
Shallow embedding of `src/app.py`, a single-script Streamlit widget that
reads a YouTube video id from a text input and, when the id is non-empty,
renders an iframe embed built from a fixed template.
-/

/-- A UI element written to the display surface, mirroring the three
Streamlit calls in `src/app.py`: `st.subheader`, `st.text_input`, and
`components.html` (whose second argument is the container height). -/
inductive UIElement : Type where
  | subheader (text : String)
  | textInput (label : String) (key : String)
  | htmlComponent (body : String) (height : Nat)
deriving DecidableEq

/-- `src/app.py` line 11: `embed_url = f"https://www.youtube.com/embed/{video_id}?rel=0"`. -/
def embed_url (video_id : String) : String :=
  "https://www.youtube.com/embed/" ++ video_id ++ "?rel=0"

/-- The part of the f-string template on lines 14-16 of `src/app.py` that
precedes the interpolated `embed_url` (up to and including `src="`). -/
def iframePre : String :=
  "\n        <iframe width=\"700\" height=\"400\"\n        src=\""

/-- The part of the f-string template on lines 16-20 of `src/app.py` that
follows the interpolated `embed_url` (from the closing quote of `src`). -/
def iframePost : String :=
  "\"\n        frameborder=\"0\"\n        allowfullscreen>\n        </iframe>\n    "

/-- The full HTML body passed to `components.html` on lines 14-20. -/
def iframeHtml (u : String) : String :=
  iframePre ++ u ++ iframePost

/-- One render cycle of `src/app.py` as a function of the current value of
the text input: the subheader and text input are always written; the HTML
component only when `video_id` is truthy (a non-empty string). -/
def render (video_id : String) : List UIElement :=
  [UIElement.subheader ("🎥 Enter YouTube Video ID:"),
   UIElement.textInput ("Video Link ID") ("linkid")] ++
  (if video_id = "" then []
   else [UIElement.htmlComponent (iframeHtml (embed_url video_id)) 400])

/-- Recognises the conditional embed fragment among the rendered elements. -/
def isEmbedFragment : UIElement → Bool
  | UIElement.htmlComponent _ _ => true
  | _ => false

/-- The fixed URL prefix of line 11 of `src/app.py`. -/
def urlPre : String := "https://www.youtube.com/embed/"

/-- The fixed URL suffix of line 11 of `src/app.py`. -/
def urlSuf : String := "?rel=0"

/-- Number of character positions of `text` at which `pat` occurs. -/
def countOcc (pat : List Char) : List Char → Nat
  | [] => 0
  | c :: t => (if List.isPrefixOf pat (c :: t) then 1 else 0) + countOcc pat t

/-- Drop characters of `text` up to and through the first occurrence of
`pat`; `[]` when `pat` does not occur. -/
def dropThrough (pat : List Char) : List Char → List Char
  | [] => []
  | c :: t =>
    if List.isPrefixOf pat (c :: t) then (c :: t).drop pat.length
    else dropThrough pat t

/-- The value of the `src` attribute as an HTML parser would read it: the
characters after the first `src="` up to the next double quote. -/
def srcAttrValue (body : List Char) : List Char :=
  (dropThrough (("src=\"").data) body).takeWhile (fun c => ¬ c = '"')

/-- The constant characters of the fragment to the left of the identifier. -/
def tplL : List Char := (iframePre ++ urlPre).data

/-- The constant characters of the fragment to the right of the identifier. -/
def tplR : List Char := (urlSuf ++ iframePost).data

/-- The characters of the template before the `<` of the iframe tag. -/
def tplSpaces : List Char := ("\n        ").data

/-- The template characters after the `<` of the iframe tag and before the
identifier; none of them is `<`. -/
def tplMid : List Char :=
  ("iframe width=\"700\" height=\"400\"\n        src=\"https://www.youtube.com/embed/").data

/-- The template part before `src="`. -/
def preHead : String := "\n        <iframe width=\"700\" height=\"400\"\n        "

/-- The template part after the quote closing the `src` attribute. -/
def postTail : String :=
  "\n        frameborder=\"0\"\n        allowfullscreen>\n        </iframe>\n    "

/-- An identifier that closes the `src` attribute's quoting and opens a
second iframe tag inside the emitted fragment. -/
def badId : String := "\"><iframe src=\"x"

/-- An identifier containing a double quote character. -/
def quoteId : String := "a\"b"

/-- The conjunction asserted of the fragment rendered for identifier `s`:
it is the unique embed element, sits in a container of height 400, opens
exactly one iframe tag, and carries the four fixed attributes together
with a `src` attribute holding the embed URL. -/
def iframeFragmentOk (s : String) : Prop :=
  (render s).filter isEmbedFragment
      = [UIElement.htmlComponent (iframeHtml (embed_url s)) 400]
  ∧ countOcc (("<iframe").data) (iframeHtml (embed_url s)).data = 1
  ∧ (("width=\"700\"").data <:+: (iframeHtml (embed_url s)).data)
  ∧ (("height=\"400\"").data <:+: (iframeHtml (embed_url s)).data)
  ∧ (("frameborder=\"0\"").data <:+: (iframeHtml (embed_url s)).data)
  ∧ (("allowfullscreen").data <:+: (iframeHtml (embed_url s)).data)
  ∧ (("src=\"" ++ embed_url s ++ "\"").data <:+: (iframeHtml (embed_url s)).data)

/- Helper lemmas. -/

theorem embed_url_data (s : String) :
    (embed_url s).data = urlPre.data ++ s.data ++ urlSuf.data := rfl

theorem iframeHtml_data (u : String) :
    (iframeHtml u).data = iframePre.data ++ u.data ++ iframePost.data := rfl

theorem fragment_data (s : String) :
    (iframeHtml (embed_url s)).data = tplL ++ (s.data ++ tplR) := by
  show iframePre.data ++ ((urlPre.data ++ s.data) ++ urlSuf.data) ++ iframePost.data
      = (iframePre.data ++ urlPre.data) ++ (s.data ++ (urlSuf.data ++ iframePost.data))
  simp [List.append_assoc]

theorem infix_append_right {α : Type} {p m : List α} (r : List α) (h : p <:+: m) :
    p <:+: m ++ r := by
  obtain ⟨a, b, rfl⟩ := h
  exact ⟨a, b ++ r, by simp⟩

theorem infix_append_left {α : Type} {p m : List α} (l : List α) (h : p <:+: m) :
    p <:+: l ++ m := by
  obtain ⟨a, b, rfl⟩ := h
  exact ⟨l ++ a, b, by simp⟩

theorem countOcc_cons_of_ne (p : Char) (ps : List Char) (c : Char) (t : List Char)
    (h : ¬ p = c) : countOcc (p :: ps) (c :: t) = countOcc (p :: ps) t := by
  have hpre : List.isPrefixOf (p :: ps) (c :: t) = false := by
    refine Bool.eq_false_iff.mpr (fun hcon => ?_)
    have hp := List.isPrefixOf_iff_prefix.mp hcon
    exact h (List.cons_prefix_cons.mp hp).1
  simp [countOcc, hpre]

theorem countOcc_skip (p : Char) (ps : List Char) (t rest : List Char)
    (h : ¬ p ∈ t) : countOcc (p :: ps) (t ++ rest) = countOcc (p :: ps) rest := by
  induction t with
  | nil => rfl
  | cons c t ih =>
      rw [List.cons_append, countOcc_cons_of_ne p ps c (t ++ rest)
        (fun hc => h (hc ▸ List.mem_cons_self c t))]
      exact ih (fun hm => h (List.mem_cons_of_mem c hm))

theorem countOcc_cons_hit (pat : List Char) (c : Char) (t : List Char)
    (h : List.isPrefixOf pat (c :: t) = true) :
    countOcc pat (c :: t) = 1 + countOcc pat t := by
  simp [countOcc, h]

theorem tplL_split : tplL = tplSpaces ++ '<' :: tplMid := rfl

/-- The fragment built from an identifier free of `<` contains exactly one
occurrence of the tag opener `<iframe`. -/
theorem countOcc_iframe (s : String) (h : ¬ ('<' : Char) ∈ s.data) :
    countOcc (("<iframe").data) (iframeHtml (embed_url s)).data = 1 := by
  show countOcc ('<' :: ("iframe").data) (iframeHtml (embed_url s)).data = 1
  rw [fragment_data, tplL_split, List.append_assoc]
  rw [countOcc_skip _ _ tplSpaces _ (by decide)]
  rw [List.cons_append]
  have hpre : List.isPrefixOf ('<' :: ("iframe").data)
      ('<' :: (tplMid ++ (s.data ++ tplR))) = true := by
    refine List.isPrefixOf_iff_prefix.mpr (List.cons_prefix_cons.mpr ⟨rfl, ?_⟩)
    have h1 : ("iframe").data <+: tplMid := by decide
    exact h1.trans (List.prefix_append tplMid _)
  rw [countOcc_cons_hit _ _ _ hpre]
  rw [countOcc_skip _ _ tplMid _ (by decide)]
  rw [countOcc_skip _ _ s.data _ h]
  rw [show countOcc ('<' :: ("iframe").data) tplR = 0 from by decide]

/-- The fragment carries `src="` immediately before the embed URL and a
closing quote immediately after it. -/
theorem src_infix (s : String) :
    (("src=\"" ++ embed_url s ++ "\"").data) <:+: (iframeHtml (embed_url s)).data := by
  refine ⟨preHead.data, postTail.data, ?_⟩
  show preHead.data ++ ((("src=\"").data ++ (embed_url s).data) ++ ("\"").data)
        ++ postTail.data
      = (iframePre.data ++ (embed_url s).data) ++ iframePost.data
  rw [show iframePre.data = preHead.data ++ ("src=\"").data from rfl]
  rw [show iframePost.data = ("\"").data ++ postTail.data from rfl]
  simp [List.append_assoc]

/-- With a non-empty identifier the rendered elements contain exactly the
one embed fragment, in a container of height 400. -/
theorem render_filter (s : String) (h : ¬ s = "") :
    (render s).filter isEmbedFragment
      = [UIElement.htmlComponent (iframeHtml (embed_url s)) 400] := by
  simp [render, h, isEmbedFragment]

theorem infix_fragment_of_infix_pre {p : List Char} (s : String)
    (h : p <:+: iframePre.data) : p <:+: (iframeHtml (embed_url s)).data := by
  rw [iframeHtml_data, List.append_assoc]
  exact infix_append_right _ h

theorem infix_fragment_of_infix_post {p : List Char} (s : String)
    (h : p <:+: iframePost.data) : p <:+: (iframeHtml (embed_url s)).data := by
  rw [iframeHtml_data]
  exact infix_append_left _ h

theorem render_eq_of_ne (s : String) (h : ¬ s = "") :
    render s = [UIElement.subheader ("🎥 Enter YouTube Video ID:"),
      UIElement.textInput ("Video Link ID") ("linkid"),
      UIElement.htmlComponent (iframeHtml (embed_url s)) 400] := by
  simp [render, h]

/-- Claim C1: for every non-empty identifier string `s`, the embed URL the
program constructs equals the fixed prefix `https://www.youtube.com/embed/`
concatenated with `s` concatenated with the fixed suffix `?rel=0`. -/
theorem claim1_embed_url_concatenation (s : String) (h : ¬ s = "") :
    embed_url s = urlPre ++ s ++ urlSuf
    ∧ (embed_url s).data = urlPre.data ++ s.data ++ urlSuf.data
    ∧ urlPre = "https://www.youtube.com/embed/" ∧ urlSuf = "?rel=0" :=
  ⟨rfl, rfl, rfl, rfl⟩

theorem claim1_embed_url_concatenation_witness :
    embed_url ("abc") = urlPre ++ "abc" ++ urlSuf
    ∧ (embed_url ("abc")).data = urlPre.data ++ ("abc").data ++ urlSuf.data
    ∧ urlPre = "https://www.youtube.com/embed/" ∧ urlSuf = "?rel=0" :=
  claim1_embed_url_concatenation ("abc") (by decide)

/-- Claim C2: for the empty identifier the program renders only the
subheader and the text input; no embed fragment is emitted. -/
theorem claim2_empty_input_no_fragment :
    render ("") = [UIElement.subheader ("🎥 Enter YouTube Video ID:"),
      UIElement.textInput ("Video Link ID") ("linkid")]
    ∧ (render ("")).filter isEmbedFragment = [] :=
  ⟨rfl, rfl⟩

/-- Claim C3: whenever a fragment is produced, it carries `width="700"` and
`height="400"`; both attributes live in the constant template prefix
`iframePre`, so their values do not depend on the identifier. -/
theorem claim3_fixed_width_height (s : String) (h : ¬ s = "") :
    (("width=\"700\"").data <:+: (iframeHtml (embed_url s)).data)
    ∧ (("height=\"400\"").data <:+: (iframeHtml (embed_url s)).data)
    ∧ (("<iframe width=\"700\" height=\"400\"").data <:+: iframePre.data)
    ∧ iframeHtml (embed_url s) = iframePre ++ embed_url s ++ iframePost :=
  ⟨infix_fragment_of_infix_pre s (by decide),
   infix_fragment_of_infix_pre s (by decide),
   by decide, rfl⟩

theorem claim3_fixed_width_height_witness :
    (("width=\"700\"").data <:+: (iframeHtml (embed_url ("abc"))).data)
    ∧ (("height=\"400\"").data <:+: (iframeHtml (embed_url ("abc"))).data)
    ∧ (("<iframe width=\"700\" height=\"400\"").data <:+: iframePre.data)
    ∧ iframeHtml (embed_url ("abc")) = iframePre ++ embed_url ("abc") ++ iframePost :=
  claim3_fixed_width_height ("abc") (by decide)

/-- Claim C4: rendering is deterministic in the identifier: two render
cycles given the same identifier produce identical element lists. -/
theorem claim4_render_deterministic (s t : String) (h : s = t) :
    render s = render t := by
  rw [h]

theorem claim4_render_deterministic_witness :
    render ("dQw4w9WgXcQ") = render ("dQw4w9WgXcQ") :=
  claim4_render_deterministic ("dQw4w9WgXcQ") ("dQw4w9WgXcQ") rfl

/-- Claim C5 counterexample: for the non-empty identifier
`"><iframe src="x` the emitted fragment opens the iframe tag twice, so it
does not contain exactly one iframe. -/
theorem claim5_counterexample :
    ¬ badId = ""
    ∧ ¬ countOcc (("<iframe").data) (iframeHtml (embed_url badId)).data = 1
    ∧ countOcc (("<iframe").data) (iframeHtml (embed_url badId)).data = 2 := by
  refine ⟨by decide, by decide, by decide⟩

/-- Claim C5 (amended): for every non-empty identifier that does not
contain the character `<`, the emitted HTML fragment contains exactly one
iframe tag whose attributes are width 700, height 400, frameborder 0,
allowfullscreen, and src equal to the constructed embed URL, and the
fragment is rendered inside a container of height 400. -/
theorem claim5_single_iframe_amended (s : String) (h1 : ¬ s = "")
    (h2 : ¬ ('<' : Char) ∈ s.data) : iframeFragmentOk s :=
  ⟨render_filter s h1, countOcc_iframe s h2,
   infix_fragment_of_infix_pre s (by decide),
   infix_fragment_of_infix_pre s (by decide),
   infix_fragment_of_infix_post s (by decide),
   infix_fragment_of_infix_post s (by decide),
   src_infix s⟩

theorem claim5_single_iframe_amended_witness : iframeFragmentOk ("dQw4w9WgXcQ") :=
  claim5_single_iframe_amended ("dQw4w9WgXcQ") (by decide) (by decide)

/-- Claim C6: for the input `dQw4w9WgXcQ` the constructed URL is
`https://www.youtube.com/embed/dQw4w9WgXcQ?rel=0`, the fragment carries it
as the `src` attribute, and an HTML reader recovers exactly it as the
attribute value. -/
theorem claim6_example_dQw :
    embed_url ("dQw4w9WgXcQ") = "https://www.youtube.com/embed/dQw4w9WgXcQ?rel=0"
    ∧ (("src=\"https://www.youtube.com/embed/dQw4w9WgXcQ?rel=0\"").data
        <:+: (iframeHtml (embed_url ("dQw4w9WgXcQ"))).data)
    ∧ srcAttrValue (iframeHtml (embed_url ("dQw4w9WgXcQ"))).data
        = (embed_url ("dQw4w9WgXcQ")).data :=
  ⟨rfl, by decide, by decide⟩

/-- Claim C7: the program validates nothing: every non-empty identifier,
whatever its content, yields the full three-element render with exactly one
embed fragment, and no other branch exists. -/
theorem claim7_no_validation (s : String) (h : ¬ s = "") :
    render s = [UIElement.subheader ("🎥 Enter YouTube Video ID:"),
      UIElement.textInput ("Video Link ID") ("linkid"),
      UIElement.htmlComponent (iframeHtml (embed_url s)) 400]
    ∧ ((render s).filter isEmbedFragment).length = 1 := by
  refine ⟨render_eq_of_ne s h, ?_⟩
  rw [render_filter s h]
  rfl

theorem claim7_no_validation_witness :
    render ("!!! not a valid id ???")
      = [UIElement.subheader ("🎥 Enter YouTube Video ID:"),
        UIElement.textInput ("Video Link ID") ("linkid"),
        UIElement.htmlComponent (iframeHtml (embed_url ("!!! not a valid id ???"))) 400]
    ∧ ((render ("!!! not a valid id ???")).filter isEmbedFragment).length = 1 :=
  claim7_no_validation ("!!! not a valid id ???") (by decide)

/-- Claim C8: the subheader prompt and the text input are rendered first in
every cycle, identically to the empty-input cycle, and an embedded frame is
present exactly when the identifier is non-empty. -/
theorem claim8_prompt_and_input_always (s : String) :
    (render s).take 2 = [UIElement.subheader ("🎥 Enter YouTube Video ID:"),
      UIElement.textInput ("Video Link ID") ("linkid")]
    ∧ (render s).take 2 = (render ("")).take 2
    ∧ ((∃ b k, UIElement.htmlComponent b k ∈ render s) ↔ ¬ s = "") := by
  by_cases hs : s = ""
  · subst hs
    refine ⟨rfl, rfl, ?_⟩
    constructor
    · rintro ⟨b, k, hm⟩
      simp [render] at hm
    · intro hne
      exact absurd rfl hne
  · rw [render_eq_of_ne s hs]
    refine ⟨rfl, rfl, ?_⟩
    constructor
    · intro _
      exact hs
    · intro _
      exact ⟨iframeHtml (embed_url s), 400, by simp⟩

/-- Claim C9: the identifier is interpolated verbatim, unescaped, into both
the embed URL and the HTML fragment; for the identifier `a"b`, which
contains a double quote, the quote lands inside the `src` attribute and
truncates the value an HTML reader sees, so the attribute no longer holds
the embed URL. -/
theorem claim9_verbatim_interpolation :
    (∀ s : String,
      s.data <:+: (embed_url s).data ∧ s.data <:+: (iframeHtml (embed_url s)).data)
    ∧ ¬ quoteId = ""
    ∧ ('"' : Char) ∈ quoteId.data
    ∧ srcAttrValue (iframeHtml (embed_url quoteId)).data
        = ("https://www.youtube.com/embed/a").data
    ∧ ¬ srcAttrValue (iframeHtml (embed_url quoteId)).data = (embed_url quoteId).data := by
  refine ⟨fun s => ⟨⟨urlPre.data, urlSuf.data, (embed_url_data s).symm⟩, ?_⟩,
    by decide, by decide, by decide, by decide⟩
  exact ⟨tplL, tplR, by rw [fragment_data, List.append_assoc]⟩

/-- Claim C10: the program does no trimming: any non-zero-length identifier
made only of whitespace still yields the embed fragment, the whitespace
sitting verbatim inside the URL. -/
theorem claim10_no_trimming (s : String) (h1 : ¬ s = "")
    (h2 : ∀ c ∈ s.data, c.isWhitespace = true) :
    render s = [UIElement.subheader ("🎥 Enter YouTube Video ID:"),
      UIElement.textInput ("Video Link ID") ("linkid"),
      UIElement.htmlComponent (iframeHtml (embed_url s)) 400]
    ∧ s.data <:+: (embed_url s).data :=
  ⟨render_eq_of_ne s h1, ⟨urlPre.data, urlSuf.data, (embed_url_data s).symm⟩⟩

theorem claim10_no_trimming_witness :
    render ("   ") = [UIElement.subheader ("🎥 Enter YouTube Video ID:"),
      UIElement.textInput ("Video Link ID") ("linkid"),
      UIElement.htmlComponent (iframeHtml (embed_url ("   "))) 400]
    ∧ ("   ").data <:+: (embed_url ("   ")).data :=
  claim10_no_trimming ("   ") (by decide) (by decide)
